import Mathlib

set_option linter.unusedVariables false

/-!
Verification of the Exodus-II fixture generator
(`src/rust/compat-tests/c-to-rust/writer.c`).

The program is a flat sequence of calls into the external `libexodus`
library, selected by a command-line scenario name.  We embed it as a pure
function from an environment (the results the external library would
return, and the wall-clock date/time strings read for the QA record) to a
trace of the library calls issued, together with the text written to
stdout/stderr and the process exit behaviour.

Floating-point note: every `double` computation the program performs is
exact in binary64 — the loop index `step` is 0 or 1, so each product
`step * c` and each sum `a + step * c` involves only multiplication by 0
or 1 and sums of dyadic integers (100.0, 10.0, ...), all of which round
to themselves.  The only non-dyadic literal, `0.1`, is multiplied by 0 or
1 only.  Hence modelling `double` values by `ℚ` (with the literal `0.1`
denoted `1/10`) is an exact model of the values the program writes.
-/

namespace ExodusWriter

/-- Entity-type constants of the exodus API (`EX_ELEM_BLOCK`,
`EX_NODE_SET`, `EX_SIDE_SET`, `EX_GLOBAL`, `EX_NODAL`). -/
inductive ExEntityType where
  | elemBlock
  | nodeSet
  | sideSet
  | global
  | nodal
deriving DecidableEq

/-- File-creation mode passed to `ex_create`; the writer always passes
`EX_CLOBBER`. -/
inductive ExCreateMode where
  | clobber
  | noclobber
deriving DecidableEq

/-- One call into the external exodus library, with the arguments the
writer passes.  `double` arguments are modelled by `ℚ` (see the header
note on exactness). -/
inductive Event where
  | create (filename : String) (mode : ExCreateMode)
  | putInit (title : String) (numDim numNodes numElem numElemBlk numNodeSets numSideSets : Int)
  | putCoord (x y : List ℚ) (z : Option (List ℚ))
  | putCoordNames (names : List String)
  | putBlock (etype : ExEntityType) (id : Int) (elemType : String) (numEntries nodesPerEntry : Int)
  | putConn (etype : ExEntityType) (id : Int) (connect : List Int)
  | putSetParam (etype : ExEntityType) (id : Int) (numEntries numDistFact : Int)
  | putSet (etype : ExEntityType) (id : Int) (entries : List Int) (extra : Option (List Int))
  | putVariableParam (etype : ExEntityType) (numVars : Int)
  | putVariableNames (etype : ExEntityType) (numVars : Int) (names : List String)
  | putTime (step : Int) (value : ℚ)
  | putVar (step : Int) (etype : ExEntityType) (varIndex objId numEntries : Int) (values : List ℚ)
  | putQa (numRecords : Int) (name version date time : String)
  | close
deriving DecidableEq

/-- An observable action of the process: the `system("mkdir -p output")`
call, a library call, a line printed to stdout, or a line printed to
stderr. -/
inductive Action where
  | mkdirOutput
  | lib (e : Event)
  | out (s : String)
  | err (s : String)
deriving DecidableEq

/-- The environment a single generator function runs in: the id returned
by `ex_create`, the return codes of the subsequent library calls (indexed
in call order; the C code stores some of them in `error` and never reads
them), and the date/time strings produced by `strftime` from the current
wall clock. -/
structure GenEnv where
  exoid : Int
  writeResult : Nat → Int
  date : String
  time : String

/-- Result of running one generator function: the actions it performed,
and `some c` when it called `exit(c)`. -/
structure GenResult where
  actions : List Action
  exited : Option Nat
deriving DecidableEq

/-- `generate_basic_2d` (writer.c lines 19-77). -/
def generate_basic_2d (filename : String) (env : GenEnv) : GenResult :=
  let exoid := env.exoid
  if exoid < 0 then
    ⟨[.lib (.create filename .clobber),
      .err ("Error: Could not create file " ++ filename ++ "\n")], some 1⟩
  else
    let error := env.writeResult 0
    let error := env.writeResult 1
    ⟨[.lib (.create filename .clobber),
      .lib (.putInit "C-generated 2D mesh for Rust compatibility test" 2 4 1 1 0 0),
      .lib (.putCoord [0, 1, 1, 0] [0, 0, 1, 1] none),
      .lib (.putCoordNames ["x", "y"]),
      .lib (.putBlock .elemBlock 1 "QUAD4" 1 4),
      .lib (.putConn .elemBlock 1 [1, 2, 3, 4]),
      .lib (.putQa 1 "exodus-c-writer" "1.0" env.date env.time),
      .lib .close,
      .out ("Generated: " ++ filename ++ "\n")], none⟩

/-- `generate_basic_3d` (writer.c lines 80-134). -/
def generate_basic_3d (filename : String) (env : GenEnv) : GenResult :=
  let exoid := env.exoid
  if exoid < 0 then
    ⟨[.lib (.create filename .clobber),
      .err ("Error: Could not create file " ++ filename ++ "\n")], some 1⟩
  else
    let error := env.writeResult 0
    let error := env.writeResult 1
    ⟨[.lib (.create filename .clobber),
      .lib (.putInit "C-generated 3D mesh for Rust compatibility test" 3 8 1 1 0 0),
      .lib (.putCoord [0, 1, 1, 0, 0, 1, 1, 0] [0, 0, 1, 1, 0, 0, 1, 1]
        (some [0, 0, 0, 0, 1, 1, 1, 1])),
      .lib (.putCoordNames ["x", "y", "z"]),
      .lib (.putBlock .elemBlock 1 "HEX8" 1 8),
      .lib (.putConn .elemBlock 1 [1, 2, 3, 4, 5, 6, 7, 8]),
      .lib (.putQa 1 "exodus-c-writer" "1.0" env.date env.time),
      .lib .close,
      .out ("Generated: " ++ filename ++ "\n")], none⟩

/-- `generate_with_variables` (writer.c lines 137-219).  The two time
steps mirror the C loop `for (step = 0; step < 2; step++)`. -/
def generate_with_variables (filename : String) (env : GenEnv) : GenResult :=
  let exoid := env.exoid
  if exoid < 0 then
    ⟨[.lib (.create filename .clobber),
      .err ("Error: Could not create file " ++ filename ++ "\n")], some 1⟩
  else
    let error := env.writeResult 0
    let error := env.writeResult 1
    ⟨[.lib (.create filename .clobber),
      .lib (.putInit "C-generated mesh with variables" 2 4 1 1 0 0),
      .lib (.putCoord [0, 1, 1, 0] [0, 0, 1, 1] none),
      .lib (.putCoordNames ["x", "y"]),
      .lib (.putBlock .elemBlock 1 "QUAD4" 1 4),
      .lib (.putConn .elemBlock 1 [1, 2, 3, 4]),
      .lib (.putVariableParam .global 1),
      .lib (.putVariableNames .global 1 ["time_value"]),
      .lib (.putVariableParam .nodal 1),
      .lib (.putVariableNames .nodal 1 ["temperature"])] ++
     ((List.range 2).map fun (step : Nat) =>
        let time_value : ℚ := (step : ℚ) * (1/10)
        [Action.lib (.putTime ((step : Int) + 1) time_value),
         Action.lib (.putVar ((step : Int) + 1) .global 1 1 1 [time_value]),
         Action.lib (.putVar ((step : Int) + 1) .nodal 1 1 4
           [100 + (step : ℚ) * 10, 110 + (step : ℚ) * 10,
            120 + (step : ℚ) * 10, 130 + (step : ℚ) * 10])]).flatten ++
     [.lib (.putQa 1 "exodus-c-writer" "1.0" env.date env.time),
      .lib .close,
      .out ("Generated: " ++ filename ++ "\n")], none⟩

/-- `generate_multiple_blocks` (writer.c lines 222-281). -/
def generate_multiple_blocks (filename : String) (env : GenEnv) : GenResult :=
  let exoid := env.exoid
  if exoid < 0 then
    ⟨[.lib (.create filename .clobber),
      .err ("Error: Could not create file " ++ filename ++ "\n")], some 1⟩
  else
    let error := env.writeResult 0
    let error := env.writeResult 1
    let error := env.writeResult 2
    ⟨[.lib (.create filename .clobber),
      .lib (.putInit "C-generated multi-block mesh" 2 8 3 2 0 0),
      .lib (.putCoord [0, 1, 2, 0, 1, 2, 1/2, 3/2] [0, 0, 0, 1, 1, 1, 3/2, 3/2] none),
      .lib (.putCoordNames ["x", "y"]),
      .lib (.putBlock .elemBlock 10 "QUAD4" 2 4),
      .lib (.putConn .elemBlock 10 [1, 2, 5, 4, 2, 3, 6, 5]),
      .lib (.putBlock .elemBlock 20 "TRI3" 1 3),
      .lib (.putConn .elemBlock 20 [4, 7, 8]),
      .lib (.putQa 1 "exodus-c-writer" "1.0" env.date env.time),
      .lib .close,
      .out ("Generated: " ++ filename ++ "\n")], none⟩

/-- `generate_with_node_sets` (writer.c lines 284-346). -/
def generate_with_node_sets (filename : String) (env : GenEnv) : GenResult :=
  let exoid := env.exoid
  if exoid < 0 then
    ⟨[.lib (.create filename .clobber),
      .err ("Error: Could not create file " ++ filename ++ "\n")], some 1⟩
  else
    let error := env.writeResult 0
    let error := env.writeResult 1
    ⟨[.lib (.create filename .clobber),
      .lib (.putInit "C-generated mesh with node sets" 2 4 1 1 2 0),
      .lib (.putCoord [0, 1, 1, 0] [0, 0, 1, 1] none),
      .lib (.putCoordNames ["x", "y"]),
      .lib (.putBlock .elemBlock 1 "QUAD4" 1 4),
      .lib (.putConn .elemBlock 1 [1, 2, 3, 4]),
      .lib (.putSetParam .nodeSet 100 2 0),
      .lib (.putSet .nodeSet 100 [1, 2] none),
      .lib (.putSetParam .nodeSet 200 2 0),
      .lib (.putSet .nodeSet 200 [2, 3] none),
      .lib (.putQa 1 "exodus-c-writer" "1.0" env.date env.time),
      .lib .close,
      .out ("Generated: " ++ filename ++ "\n")], none⟩

/-- `generate_with_side_sets` (writer.c lines 349-413). -/
def generate_with_side_sets (filename : String) (env : GenEnv) : GenResult :=
  let exoid := env.exoid
  if exoid < 0 then
    ⟨[.lib (.create filename .clobber),
      .err ("Error: Could not create file " ++ filename ++ "\n")], some 1⟩
  else
    let error := env.writeResult 0
    let error := env.writeResult 1
    ⟨[.lib (.create filename .clobber),
      .lib (.putInit "C-generated mesh with side sets" 2 4 1 1 0 2),
      .lib (.putCoord [0, 1, 1, 0] [0, 0, 1, 1] none),
      .lib (.putCoordNames ["x", "y"]),
      .lib (.putBlock .elemBlock 1 "QUAD4" 1 4),
      .lib (.putConn .elemBlock 1 [1, 2, 3, 4]),
      .lib (.putSetParam .sideSet 100 1 0),
      .lib (.putSet .sideSet 100 [1] (some [1])),
      .lib (.putSetParam .sideSet 200 1 0),
      .lib (.putSet .sideSet 200 [1] (some [2])),
      .lib (.putQa 1 "exodus-c-writer" "1.0" env.date env.time),
      .lib .close,
      .out ("Generated: " ++ filename ++ "\n")], none⟩

/-- `generate_comprehensive` (writer.c lines 416-503). -/
def generate_comprehensive (filename : String) (env : GenEnv) : GenResult :=
  let exoid := env.exoid
  if exoid < 0 then
    ⟨[.lib (.create filename .clobber),
      .err ("Error: Could not create file " ++ filename ++ "\n")], some 1⟩
  else
    let error := env.writeResult 0
    let error := env.writeResult 1
    ⟨[.lib (.create filename .clobber),
      .lib (.putInit "C-generated comprehensive test mesh" 2 6 2 1 1 1),
      .lib (.putCoord [0, 1, 2, 0, 1, 2] [0, 0, 0, 1, 1, 1] none),
      .lib (.putCoordNames ["x", "y"]),
      .lib (.putBlock .elemBlock 1 "QUAD4" 2 4),
      .lib (.putConn .elemBlock 1 [1, 2, 5, 4, 2, 3, 6, 5]),
      .lib (.putSetParam .nodeSet 100 2 0),
      .lib (.putSet .nodeSet 100 [1, 4] none),
      .lib (.putSetParam .sideSet 200 2 0),
      .lib (.putSet .sideSet 200 [1, 2] (some [1, 1])),
      .lib (.putVariableParam .nodal 1),
      .lib (.putVariableNames .nodal 1 ["temperature"])] ++
     ((List.range 2).map fun (step : Nat) =>
        let time_value : ℚ := (step : ℚ) * (1/2)
        [Action.lib (.putTime ((step : Int) + 1) time_value),
         Action.lib (.putVar ((step : Int) + 1) .nodal 1 1 6
           [100 + (step : ℚ) * 10, 110 + (step : ℚ) * 10, 120 + (step : ℚ) * 10,
            130 + (step : ℚ) * 10, 140 + (step : ℚ) * 10, 150 + (step : ℚ) * 10])]).flatten ++
     [.lib (.putQa 1 "exodus-c-writer" "1.0" env.date env.time),
      .lib .close,
      .out ("Generated: " ++ filename ++ "\n")], none⟩

/-- The seven scenarios of the writer, in the order of the `all` branch
of `main` (which is also the order of the spec's §4.1 table). -/
inductive Scenario where
  | basic_2d
  | basic_3d
  | with_variables
  | multiple_blocks
  | with_node_sets
  | with_side_sets
  | comprehensive
deriving DecidableEq

/-- The command-line name selecting each scenario. -/
def scenarioName : Scenario → String
  | .basic_2d => "basic_2d"
  | .basic_3d => "basic_3d"
  | .with_variables => "with_variables"
  | .multiple_blocks => "multiple_blocks"
  | .with_node_sets => "with_node_sets"
  | .with_side_sets => "with_side_sets"
  | .comprehensive => "comprehensive"

/-- `OUTPUT_DIR` (writer.c line 16). -/
def OUTPUT_DIR : String := "output"

/-- The path `main` builds with `snprintf` for each scenario
(writer.c lines 528, 532, 536, 540, 544, 548, 552). -/
def scenarioFile : Scenario → String
  | .basic_2d => OUTPUT_DIR ++ "/c_basic_2d.exo"
  | .basic_3d => OUTPUT_DIR ++ "/c_basic_3d.exo"
  | .with_variables => OUTPUT_DIR ++ "/c_with_variables.exo"
  | .multiple_blocks => OUTPUT_DIR ++ "/c_multiple_blocks.exo"
  | .with_node_sets => OUTPUT_DIR ++ "/c_with_node_sets.exo"
  | .with_side_sets => OUTPUT_DIR ++ "/c_with_side_sets.exo"
  | .comprehensive => OUTPUT_DIR ++ "/c_comprehensive.exo"

/-- Dispatch to the generator function for a scenario, at the path `main`
passes it. -/
def runScenario (sc : Scenario) (env : GenEnv) : GenResult :=
  match sc with
  | .basic_2d => generate_basic_2d (scenarioFile .basic_2d) env
  | .basic_3d => generate_basic_3d (scenarioFile .basic_3d) env
  | .with_variables => generate_with_variables (scenarioFile .with_variables) env
  | .multiple_blocks => generate_multiple_blocks (scenarioFile .multiple_blocks) env
  | .with_node_sets => generate_with_node_sets (scenarioFile .with_node_sets) env
  | .with_side_sets => generate_with_side_sets (scenarioFile .with_side_sets) env
  | .comprehensive => generate_comprehensive (scenarioFile .comprehensive) env

/-- The environment of a whole process run: the id `ex_create` returns
for each path, the (unexamined) return codes of the other library calls,
and the `strftime` date/time strings. -/
structure MainEnv where
  createResult : String → Int
  writeResult : Nat → Int
  date : String
  time : String

/-- The generator-level environment for one scenario of a run. -/
def envFor (env : MainEnv) (sc : Scenario) : GenEnv :=
  ⟨env.createResult (scenarioFile sc), env.writeResult, env.date, env.time⟩

/-- Result of a whole process run: actions in order, and the exit code. -/
structure ProcResult where
  actions : List Action
  exitCode : Nat
deriving DecidableEq

/-- Sequencing of two generator calls as `main`'s `all` branch performs
them: `exit()` inside the first call terminates the process, so the
second contributes nothing. -/
def seqGen (r : GenResult) (next : GenResult) : GenResult :=
  match r.exited with
  | some c => ⟨r.actions, some c⟩
  | none => ⟨r.actions ++ next.actions, next.exited⟩

/-- The seven scenarios in the order the `all` branch runs them
(writer.c lines 555-587). -/
def scenariosInOrder : List Scenario :=
  [.basic_2d, .basic_3d, .with_variables, .multiple_blocks,
   .with_node_sets, .with_side_sets, .comprehensive]

/-- Sequential execution of a list of scenarios, stopping at `exit()`. -/
def runScenarios (env : MainEnv) : List Scenario → GenResult
  | [] => ⟨[], none⟩
  | sc :: rest => seqGen (runScenario sc (envFor env sc)) (runScenarios env rest)

/-- The usage message printed when `argc < 2` (writer.c lines 507-517). -/
def usageActions (prog : String) : List Action :=
  [.err ("Usage: " ++ prog ++ " <test_case>\n"),
   .err "Test cases:\n",
   .err "  basic_2d          - Simple 2D quad mesh\n",
   .err "  basic_3d          - Simple 3D hex mesh\n",
   .err "  with_variables    - Mesh with time-dependent variables\n",
   .err "  multiple_blocks   - Mesh with multiple element blocks\n",
   .err "  with_node_sets    - Mesh with node sets\n",
   .err "  with_side_sets    - Mesh with side sets\n",
   .err "  comprehensive     - Comprehensive test with all features\n",
   .err "  all               - Generate all test cases\n"]

/-- Wrap a single-scenario run as `main` does: prepend the actions
performed before it and convert `exit(c)` / fall-through into the final
exit code (`return 0`). -/
def finishRun (pre : List Action) (r : GenResult) : ProcResult :=
  ⟨pre ++ r.actions, r.exited.getD 0⟩

/-- `main` (writer.c lines 505-594), as a function of the argument vector
and the environment.  `argv` is the full vector including the program
name.  Note the order of effects: the `argc < 2` check precedes the
`system("mkdir -p output")` call, which itself precedes the scenario-name
dispatch, so an unrecognized name is rejected only after the output
directory has been created. -/
def mainRun (argv : List String) (env : MainEnv) : ProcResult :=
  match argv with
  | prog :: testCase :: _ =>
    let pre := [Action.mkdirOutput]
    if testCase == "basic_2d" then
      finishRun pre (runScenario .basic_2d (envFor env .basic_2d))
    else if testCase == "basic_3d" then
      finishRun pre (runScenario .basic_3d (envFor env .basic_3d))
    else if testCase == "with_variables" then
      finishRun pre (runScenario .with_variables (envFor env .with_variables))
    else if testCase == "multiple_blocks" then
      finishRun pre (runScenario .multiple_blocks (envFor env .multiple_blocks))
    else if testCase == "with_node_sets" then
      finishRun pre (runScenario .with_node_sets (envFor env .with_node_sets))
    else if testCase == "with_side_sets" then
      finishRun pre (runScenario .with_side_sets (envFor env .with_side_sets))
    else if testCase == "comprehensive" then
      finishRun pre (runScenario .comprehensive (envFor env .comprehensive))
    else if testCase == "all" then
      let r := runScenarios env scenariosInOrder
      match r.exited with
      | some c =>
        ⟨pre ++ [Action.out "Generating all C test files...\n\n"] ++ r.actions, c⟩
      | none =>
        ⟨pre ++ [Action.out "Generating all C test files...\n\n"] ++ r.actions ++
          [Action.out "\n✓ All 7 test files generated successfully!\n"], 0⟩
    else
      ⟨pre ++ [Action.err ("Unknown test case: " ++ testCase ++ "\n")], 1⟩
  | prog :: [] => ⟨usageActions prog, 1⟩
  | [] => ⟨usageActions "", 1⟩

/-! ## Observers on traces -/

/-- The library calls of an action trace, in order. -/
def libEvents (acts : List Action) : List Event :=
  acts.filterMap fun a => match a with | .lib e => some e | _ => none

/-- The library-call trace of one scenario run. -/
def scenarioEvents (sc : Scenario) (env : GenEnv) : List Event :=
  libEvents (runScenario sc env).actions

/-- The arguments of the first `ex_put_init` call of a trace:
(dimensions, nodes, elements, element blocks, node sets, side sets). -/
def initOf : List Event → Option (Int × Int × Int × Int × Int × Int)
  | [] => none
  | .putInit _ d n e b ns ss :: _ => some (d, n, e, b, ns, ss)
  | _ :: rest => initOf rest

/-- The coordinate arrays of the first `ex_put_coord` call of a trace. -/
def coordsOf : List Event → Option (List ℚ × List ℚ × Option (List ℚ))
  | [] => none
  | .putCoord x y z :: _ => some (x, y, z)
  | _ :: rest => coordsOf rest

/-- All element-block definitions of a trace, in call order:
(identifier, topology name, element count, nodes per element). -/
def blocksOf : List Event → List (Int × String × Int × Int)
  | [] => []
  | .putBlock .elemBlock id ty n npe :: rest => (id, ty, n, npe) :: blocksOf rest
  | _ :: rest => blocksOf rest

/-- All element-block connectivity writes of a trace, in call order. -/
def connsOf : List Event → List (Int × List Int)
  | [] => []
  | .putConn .elemBlock id c :: rest => (id, c) :: connsOf rest
  | _ :: rest => connsOf rest

/-- All set-parameter writes of the given kind: (identifier, entries). -/
def setParamsOf (k : ExEntityType) : List Event → List (Int × Int)
  | [] => []
  | .putSetParam t id n d :: rest =>
    if t == k then (id, n) :: setParamsOf k rest else setParamsOf k rest
  | _ :: rest => setParamsOf k rest

/-- All set-membership writes of the given kind. -/
def setsOf (k : ExEntityType) : List Event → List (Int × List Int × Option (List Int))
  | [] => []
  | .putSet t id es ex :: rest =>
    if t == k then (id, es, ex) :: setsOf k rest else setsOf k rest
  | _ :: rest => setsOf k rest

/-- The variable count declared for the given kind, if any. -/
def varParamOf (k : ExEntityType) : List Event → Option Int
  | [] => none
  | .putVariableParam t n :: rest => if t == k then some n else varParamOf k rest
  | _ :: rest => varParamOf k rest

/-- All `ex_put_time` writes of a trace: (step, time value). -/
def timesOf : List Event → List (Int × ℚ)
  | [] => []
  | .putTime s v :: rest => (s, v) :: timesOf rest
  | _ :: rest => timesOf rest

/-- The time value written for a given step, if any. -/
def timeAt (s : Int) (evs : List Event) : Option ℚ :=
  (timesOf evs).lookup s

/-- The values of the first `ex_put_var` call of the given kind at the
given step. -/
def varValsAt (k : ExEntityType) (s : Int) : List Event → Option (List ℚ)
  | [] => none
  | .putVar s' t _ _ _ vs :: rest =>
    if t == k && s' == s then some vs else varValsAt k s rest
  | _ :: rest => varValsAt k s rest

/-- The filenames passed to `ex_create`, in call order. -/
def createdFiles (acts : List Action) : List String :=
  acts.filterMap fun a => match a with | .lib (.create f _) => some f | _ => none

/-- Erase the date/time fields of QA records; everything else of a trace
is its structural content. -/
def stripTimestamp : Event → Event
  | .putQa n name ver _ _ => .putQa n name ver "" ""
  | e => e

/-- The structural content of a generator run: its library calls with the
QA date/time fields erased. -/
def structuralContent (r : GenResult) : List Event :=
  (libEvents r.actions).map stripTimestamp

/-! ## Consistency and ordering checkers -/

/-- The mesh-consistency invariant of the spec: coordinate array lengths
match the declared node count, connectivity indices lie in
`[1, node count]`, and block element counts sum to the declared total. -/
def MeshConsistent (evs : List Event) : Bool :=
  match initOf evs with
  | none => false
  | some (_, numNodes, numElem, _, _, _) =>
    (match coordsOf evs with
     | none => false
     | some (x, y, z) =>
       ((x.length : Int) == numNodes) && ((y.length : Int) == numNodes) &&
       (match z with
        | none => true
        | some zs => (zs.length : Int) == numNodes)) &&
    ((connsOf evs).all fun p => p.2.all fun i => decide (1 ≤ i) && decide (i ≤ numNodes)) &&
    (((blocksOf evs).map fun b => b.2.2.1).sum == numElem)

/-- Parse the element-block section: each block definition immediately
followed by its connectivity (same id), ids strictly ascending.  Returns
the remaining events. -/
def parseBlockSec (prev : Option Int) : List Event → Option (List Event)
  | .putBlock t id ty n npe :: rest =>
    (match rest with
     | .putConn t' id' c :: rest' =>
       if t == .elemBlock && t' == .elemBlock && id' == id &&
          (match prev with | none => true | some p => decide (p < id)) then
         parseBlockSec (some id) rest'
       else none
     | _ => none)
  | evs => some evs

/-- Parse a section of sets of one kind: each `ex_put_set_param`
immediately followed by the `ex_put_set` of the same id. -/
def parseSetSec (k : ExEntityType) : List Event → Option (List Event)
  | .putSetParam t id n d :: .putSet t' id' es ex :: rest =>
    if t == k then
      (if t' == k && id' == id then parseSetSec k rest else none)
    else some (.putSetParam t id n d :: .putSet t' id' es ex :: rest)
  | evs => some evs

/-- Parse an optional variable declaration of one kind:
`ex_put_variable_param` immediately followed by
`ex_put_variable_names` of the same kind. -/
def parseVarPair (k : ExEntityType) : List Event → Option (List Event)
  | .putVariableParam t n :: .putVariableNames t' m ns :: rest =>
    if t == k then
      (if t' == k then some rest else none)
    else some (.putVariableParam t n :: .putVariableNames t' m ns :: rest)
  | evs => some evs

/-- Consume an optional `ex_put_var` call of the given kind at the given
step. -/
def parseStepVar (k : ExEntityType) (s : Int) : List Event → List Event
  | .putVar s' t vi oi ne vs :: rest =>
    if t == k && s' == s then rest else .putVar s' t vi oi ne vs :: rest
  | evs => evs

/-- Parse the time-step section: for each step, in strictly ascending
step order, the time value, then the global values, then the nodal
values.  `fuel` bounds the recursion; each iteration consumes at least
one event, so fuel equal to the list length is always enough. -/
def parseSteps : Nat → Option Int → List Event → Option (List Event)
  | 0, _, _ => none
  | fuel + 1, prev, .putTime s v :: rest =>
    if (match prev with | none => true | some p => decide (p < s)) then
      parseSteps fuel (some s) (parseStepVar .nodal s (parseStepVar .global s rest))
    else none
  | _ + 1, _, evs => some evs

/-- The fixed write order of the spec: create, init, coordinates,
coordinate names, blocks (definition then connectivity, ascending ids),
node sets, side sets, variable declarations (global before nodal), time
steps in ascending order (time, then global values, then nodal values),
QA record, close. -/
def FixedWriteOrder (evs : List Event) : Bool :=
  match evs with
  | .create _ _ :: .putInit _ _ _ _ _ _ _ :: .putCoord _ _ _ :: .putCoordNames _ :: rest =>
    (match parseBlockSec none rest with
     | none => false
     | some r1 =>
       match parseSetSec .nodeSet r1 with
       | none => false
       | some r2 =>
         match parseSetSec .sideSet r2 with
         | none => false
         | some r3 =>
           match parseVarPair .global r3 with
           | none => false
           | some r4 =>
             match parseVarPair .nodal r4 with
             | none => false
             | some r5 =>
               match parseSteps (r5.length + 1) none r5 with
               | none => false
               | some r6 =>
                 match r6 with
                 | [.putQa _ _ _ _ _, .close] => true
                 | _ => false)
  | _ => false

/-! ## The scenario table of spec §4.1 -/

/-- One row of the spec's §4.1 scenario table. -/
structure TableRow where
  dim : Int
  nodes : Int
  elems : Int
  blocks : List (String × Int)
  nodeSets : Int
  sideSets : Int
  globalVars : Option Int
  nodalVars : Option Int
  timeSteps : Nat
deriving DecidableEq

/-- The §4.1 table. -/
def tableRow : Scenario → TableRow
  | .basic_2d => ⟨2, 4, 1, [("QUAD4", 1)], 0, 0, none, none, 0⟩
  | .basic_3d => ⟨3, 8, 1, [("HEX8", 1)], 0, 0, none, none, 0⟩
  | .with_variables => ⟨2, 4, 1, [("QUAD4", 1)], 0, 0, some 1, some 1, 2⟩
  | .multiple_blocks => ⟨2, 8, 3, [("QUAD4", 2), ("TRI3", 1)], 0, 0, none, none, 0⟩
  | .with_node_sets => ⟨2, 4, 1, [("QUAD4", 1)], 2, 0, none, none, 0⟩
  | .with_side_sets => ⟨2, 4, 1, [("QUAD4", 1)], 0, 2, none, none, 0⟩
  | .comprehensive => ⟨2, 6, 2, [("QUAD4", 2)], 1, 1, none, some 1, 2⟩

/-- A trace matches a table row: declared descriptor, block list (type
and count per block), number of sets written, declared variable counts,
and number of time steps. -/
def RowOk (row : TableRow) (evs : List Event) : Bool :=
  (initOf evs ==
    some (row.dim, row.nodes, row.elems, (row.blocks.length : Int),
      row.nodeSets, row.sideSets)) &&
  ((blocksOf evs).map (fun b => (b.2.1, b.2.2.1)) == row.blocks) &&
  (((setParamsOf .nodeSet evs).length : Int) == row.nodeSets) &&
  (((setsOf .nodeSet evs).length : Int) == row.nodeSets) &&
  (((setParamsOf .sideSet evs).length : Int) == row.sideSets) &&
  (((setsOf .sideSet evs).length : Int) == row.sideSets) &&
  (varParamOf .global evs == row.globalVars) &&
  (varParamOf .nodal evs == row.nodalVars) &&
  ((timesOf evs).length == row.timeSteps)

/-! ## Error-reporting observers -/

/-- Actions that touch the filesystem: the `mkdir` and every library
call (the library owns the output file). -/
def isFileEffect : Action → Bool
  | .mkdirOutput => true
  | .lib _ => true
  | _ => false

/-- Stderr reports. -/
def isErrPrint : Action → Bool
  | .err _ => true
  | _ => false

/-- The error report comes before any filesystem effect: no action
before the first stderr print touches the filesystem. -/
def reportedBeforeFileEffects (acts : List Action) : Bool :=
  (acts.takeWhile fun a => !isErrPrint a).all fun a => !isFileEffect a

/-- Modelled from the spec: the overwrite semantics of the external
library's `ex_create` mode argument, which is not part of this
repository — with `EX_CLOBBER`, re-creating a file at an existing path
overwrites the prior file ("Re-running any single scenario overwrites
its prior output"). -/
def createModeOverwrites : ExCreateMode → Bool
  | .clobber => true
  | .noclobber => false

/-- A sample generator environment in which every library call
succeeds. -/
def env0 : GenEnv := ⟨0, fun _ => 0, "2026-10-11", "12:00:00"⟩

/-- A generator environment in which every write call after file
creation reports failure. -/
def env1 : GenEnv := ⟨3, fun _ => -1, "2026-10-12", "08:30:00"⟩

/-- A sample process environment in which every library call
succeeds. -/
def menv0 : MainEnv := ⟨fun _ => 0, fun _ => 0, "2026-10-11", "12:00:00"⟩

/-! ## Claim theorems -/

/-- C1: running the `basic_2d` scenario creates its file and writes a
mesh descriptor of 2 dimensions, 4 nodes, 1 element and 1 element block,
coordinates x = (0,1,1,0) and y = (0,0,1,1), and a single 4-node element
block with connectivity (1,2,3,4). -/
theorem basic_2d_descriptor_correct (env : GenEnv) (h : 0 ≤ env.exoid) :
    (scenarioEvents .basic_2d env).head? =
      some (.create (scenarioFile .basic_2d) .clobber) ∧
    initOf (scenarioEvents .basic_2d env) = some (2, 4, 1, 1, 0, 0) ∧
    coordsOf (scenarioEvents .basic_2d env) = some ([0, 1, 1, 0], [0, 0, 1, 1], none) ∧
    blocksOf (scenarioEvents .basic_2d env) = [(1, "QUAD4", 1, 4)] ∧
    connsOf (scenarioEvents .basic_2d env) = [(1, [1, 2, 3, 4])] := by
  have h' : ¬ env.exoid < 0 := not_lt.mpr h
  simp only [scenarioEvents, runScenario, generate_basic_2d]
  rw [if_neg h']
  exact ⟨rfl, rfl, rfl, rfl, rfl⟩

/-- Witness for C1 at a concrete environment. -/
theorem basic_2d_descriptor_correct_witness :
    0 ≤ env0.exoid ∧
    ((scenarioEvents .basic_2d env0).head? =
       some (.create (scenarioFile .basic_2d) .clobber) ∧
     initOf (scenarioEvents .basic_2d env0) = some (2, 4, 1, 1, 0, 0) ∧
     coordsOf (scenarioEvents .basic_2d env0) = some ([0, 1, 1, 0], [0, 0, 1, 1], none) ∧
     blocksOf (scenarioEvents .basic_2d env0) = [(1, "QUAD4", 1, 4)] ∧
     connsOf (scenarioEvents .basic_2d env0) = [(1, [1, 2, 3, 4])]) :=
  ⟨by decide, basic_2d_descriptor_correct env0 (by decide)⟩

/-- C2: in the two scenarios that write variable series, every value
written at step s (1-based) is exactly base + (s-1)·increment: the nodal
temperature at 1-based node n (model index n-1) is
100 + 10·(n-1) + 10·(s-1), and the global variable of `with_variables`
is 0 + (s-1)·(1/10).  All the binary64 operations involved are exact, so
the rational model is exact (see the header note). -/
theorem variable_series_exact (env : GenEnv) (h : 0 ≤ env.exoid)
    (s : ℕ) (hs : s = 1 ∨ s = 2) :
    varValsAt .nodal (s : Int) (scenarioEvents .with_variables env) =
      some ((List.range 4).map fun (n : Nat) => (100 + 10 * (n : ℚ)) + ((s : ℚ) - 1) * 10) ∧
    varValsAt .global (s : Int) (scenarioEvents .with_variables env) =
      some [0 + ((s : ℚ) - 1) * (1/10)] ∧
    varValsAt .nodal (s : Int) (scenarioEvents .comprehensive env) =
      some ((List.range 6).map fun (n : Nat) => (100 + 10 * (n : ℚ)) + ((s : ℚ) - 1) * 10) := by
  have h' : ¬ env.exoid < 0 := not_lt.mpr h
  simp only [scenarioEvents, runScenario, generate_with_variables, generate_comprehensive]
  rw [if_neg h', if_neg h']
  rcases hs with rfl | rfl <;>
    refine ⟨?_, ?_, ?_⟩ <;>
    (norm_num [varValsAt, libEvents, List.filterMap, List.range_succ] <;> decide)

/-- Witness for C2 at a concrete environment and step. -/
theorem variable_series_exact_witness :
    (0 ≤ env0.exoid ∧ ((2 : ℕ) = 1 ∨ (2 : ℕ) = 2)) ∧
    (varValsAt .nodal ((2 : ℕ) : Int) (scenarioEvents .with_variables env0) =
       some ((List.range 4).map fun (n : Nat) => (100 + 10 * (n : ℚ)) + (((2 : ℕ) : ℚ) - 1) * 10) ∧
     varValsAt .global ((2 : ℕ) : Int) (scenarioEvents .with_variables env0) =
       some [0 + (((2 : ℕ) : ℚ) - 1) * (1/10)] ∧
     varValsAt .nodal ((2 : ℕ) : Int) (scenarioEvents .comprehensive env0) =
       some ((List.range 6).map fun (n : Nat) => (100 + 10 * (n : ℚ)) + (((2 : ℕ) : ℚ) - 1) * 10)) :=
  ⟨⟨by decide, by decide⟩, variable_series_exact env0 (by decide) 2 (by decide)⟩

/-- C3: every scenario's trace is consistent with its declared mesh
descriptor: coordinate array lengths equal the declared node count,
every connectivity index lies in [1, node count], and block element
counts sum to the declared total element count. -/
theorem mesh_consistent_all_scenarios (sc : Scenario) (env : GenEnv)
    (h : 0 ≤ env.exoid) :
    MeshConsistent (scenarioEvents sc env) = true := by
  have h' : ¬ env.exoid < 0 := not_lt.mpr h
  cases sc <;>
    simp only [scenarioEvents, runScenario, generate_basic_2d, generate_basic_3d,
      generate_with_variables, generate_multiple_blocks, generate_with_node_sets,
      generate_with_side_sets, generate_comprehensive] <;>
    rw [if_neg h'] <;> rfl

/-- Witness for C3 at a concrete scenario and environment. -/
theorem mesh_consistent_all_scenarios_witness :
    0 ≤ env0.exoid ∧ MeshConsistent (scenarioEvents .multiple_blocks env0) = true :=
  ⟨by decide, mesh_consistent_all_scenarios .multiple_blocks env0 (by decide)⟩

/-- C4: every scenario issues its library calls in the fixed order:
create, init, coordinates, coordinate names, element blocks (definition
then connectivity, ascending ids), node sets (params then membership),
side sets (params then membership), variable declarations (global
before nodal), time steps in ascending order (time value, then global
values, then nodal values), QA record, close. -/
theorem fixed_write_order_all_scenarios (sc : Scenario) (env : GenEnv)
    (h : 0 ≤ env.exoid) :
    FixedWriteOrder (scenarioEvents sc env) = true := by
  have h' : ¬ env.exoid < 0 := not_lt.mpr h
  cases sc <;>
    simp only [scenarioEvents, runScenario, generate_basic_2d, generate_basic_3d,
      generate_with_variables, generate_multiple_blocks, generate_with_node_sets,
      generate_with_side_sets, generate_comprehensive] <;>
    rw [if_neg h'] <;> rfl

/-- Witness for C4 at a concrete scenario and environment. -/
theorem fixed_write_order_all_scenarios_witness :
    0 ≤ env0.exoid ∧ FixedWriteOrder (scenarioEvents .comprehensive env0) = true :=
  ⟨by decide, fixed_write_order_all_scenarios .comprehensive env0 (by decide)⟩

/-! ## Helper lemmas about runs -/

/-- When `ex_create` fails, every generator reports the error and calls
`exit(1)`. -/
theorem runScenario_exit_of_createFail (sc : Scenario) (env : GenEnv)
    (h : env.exoid < 0) :
    runScenario sc env =
      ⟨[.lib (.create (scenarioFile sc) .clobber),
        .err ("Error: Could not create file " ++ scenarioFile sc ++ "\n")], some 1⟩ := by
  cases sc <;>
    simp only [runScenario, generate_basic_2d, generate_basic_3d, generate_with_variables,
      generate_multiple_blocks, generate_with_node_sets, generate_with_side_sets,
      generate_comprehensive] <;>
    rw [if_pos h]

/-- When `ex_create` succeeds, no generator calls `exit`. -/
theorem runScenario_completes (sc : Scenario) (env : GenEnv) (h : 0 ≤ env.exoid) :
    (runScenario sc env).exited = none := by
  have h' : ¬ env.exoid < 0 := not_lt.mpr h
  cases sc <;>
    simp only [runScenario, generate_basic_2d, generate_basic_3d, generate_with_variables,
      generate_multiple_blocks, generate_with_node_sets, generate_with_side_sets,
      generate_comprehensive] <;>
    rw [if_neg h']

/-- Selecting one scenario by name dispatches `main` to exactly that
scenario's generator, after the output-directory creation. -/
theorem mainRun_scenario (prog : String) (sc : Scenario) (env : MainEnv) :
    mainRun [prog, scenarioName sc] env =
      finishRun [Action.mkdirOutput] (runScenario sc (envFor env sc)) := by
  cases sc <;> rfl

/-- When every `ex_create` succeeds, a scenario sequence never exits. -/
theorem runScenarios_exited_none (env : MainEnv) (l : List Scenario)
    (hall : ∀ f, 0 ≤ env.createResult f) :
    (runScenarios env l).exited = none := by
  induction l with
  | nil => rfl
  | cons sc rest ih =>
    have h1 : (runScenario sc (envFor env sc)).exited = none :=
      runScenario_completes sc (envFor env sc) (hall (scenarioFile sc))
    simp only [runScenarios, seqGen, h1]
    exact ih

/-- When every `ex_create` succeeds, the actions of a scenario sequence
are the concatenation of the individual scenarios' actions. -/
theorem runScenarios_actions_append (env : MainEnv) (l : List Scenario)
    (hall : ∀ f, 0 ≤ env.createResult f) :
    (runScenarios env l).actions =
      (l.map fun sc => (runScenario sc (envFor env sc)).actions).flatten := by
  induction l with
  | nil => rfl
  | cons sc rest ih =>
    have h1 : (runScenario sc (envFor env sc)).exited = none :=
      runScenario_completes sc (envFor env sc) (hall (scenarioFile sc))
    simp only [runScenarios, seqGen, h1, List.map_cons, List.flatten_cons]
    rw [ih]

/-- `createdFiles` distributes over concatenation. -/
theorem createdFiles_append (l1 l2 : List Action) :
    createdFiles (l1 ++ l2) = createdFiles l1 ++ createdFiles l2 := by
  simp [createdFiles, List.filterMap_append]

/-- Every scenario run calls `ex_create` exactly once, on the scenario's
path, whether or not the creation succeeds. -/
theorem createdFiles_runScenario (sc : Scenario) (env : GenEnv) :
    createdFiles (runScenario sc env).actions = [scenarioFile sc] := by
  rcases lt_or_le env.exoid 0 with h | h
  · rw [runScenario_exit_of_createFail sc env h]
    rfl
  · have h' : ¬ env.exoid < 0 := not_lt.mpr h
    cases sc <;>
      simp only [runScenario, generate_basic_2d, generate_basic_3d, generate_with_variables,
        generate_multiple_blocks, generate_with_node_sets, generate_with_side_sets,
        generate_comprehensive] <;>
      rw [if_neg h'] <;> rfl

/-- When every `ex_create` succeeds, a scenario sequence creates exactly
one file per scenario, in sequence order. -/
theorem createdFiles_runScenarios (env : MainEnv) (l : List Scenario)
    (hall : ∀ f, 0 ≤ env.createResult f) :
    createdFiles (runScenarios env l).actions = l.map scenarioFile := by
  induction l with
  | nil => rfl
  | cons sc rest ih =>
    have h1 : (runScenario sc (envFor env sc)).exited = none :=
      runScenario_completes sc (envFor env sc) (hall (scenarioFile sc))
    simp only [runScenarios, seqGen, h1, List.map_cons]
    rw [createdFiles_append, createdFiles_runScenario, ih]
    rfl

/-- C5 counterexample: for the unrecognized scenario name "bogus", the
output-directory creation (a filesystem effect) happens before the error
report, so the usage error is not detected before any I/O as the claim
states; the exit code is 1. -/
theorem usage_error_io_counterexample :
    (mainRun ["writer", "bogus"] menv0).exitCode = 1 ∧
    reportedBeforeFileEffects (mainRun ["writer", "bogus"] menv0).actions = false :=
  ⟨rfl, rfl⟩

/-- C5 (amended): the process exits with code 1 on a missing argument,
an unrecognized scenario name, or a file-creation failure, and 0
otherwise.  A missing argument is reported to the error stream before
any filesystem effect.  An unrecognized scenario name is reported to the
error stream and issues no library call — in particular it produces no
output file — but it is detected only after the output directory has
been created. -/
theorem exit_codes_amended (env : MainEnv) (prog s : String)
    (hs : s ∉ ["basic_2d", "basic_3d", "with_variables", "multiple_blocks",
               "with_node_sets", "with_side_sets", "comprehensive", "all"]) :
    (mainRun [prog] env).exitCode = 1 ∧
    (mainRun [prog] env).actions = usageActions prog ∧
    reportedBeforeFileEffects (mainRun [prog] env).actions = true ∧
    (mainRun [prog, s] env).actions =
      [.mkdirOutput, .err ("Unknown test case: " ++ s ++ "\n")] ∧
    (mainRun [prog, s] env).exitCode = 1 ∧
    (∀ sc : Scenario, env.createResult (scenarioFile sc) < 0 →
      (mainRun [prog, scenarioName sc] env).exitCode = 1) ∧
    ((∀ f, 0 ≤ env.createResult f) →
      (∀ sc : Scenario, (mainRun [prog, scenarioName sc] env).exitCode = 0) ∧
      (mainRun [prog, "all"] env).exitCode = 0) := by
  simp only [List.mem_cons, List.not_mem_nil, or_false, not_or] at hs
  obtain ⟨h1, h2, h3, h4, h5, h6, h7, h8⟩ := hs
  have e1 : (s == "basic_2d") = false := beq_eq_false_iff_ne.mpr h1
  have e2 : (s == "basic_3d") = false := beq_eq_false_iff_ne.mpr h2
  have e3 : (s == "with_variables") = false := beq_eq_false_iff_ne.mpr h3
  have e4 : (s == "multiple_blocks") = false := beq_eq_false_iff_ne.mpr h4
  have e5 : (s == "with_node_sets") = false := beq_eq_false_iff_ne.mpr h5
  have e6 : (s == "with_side_sets") = false := beq_eq_false_iff_ne.mpr h6
  have e7 : (s == "comprehensive") = false := beq_eq_false_iff_ne.mpr h7
  have e8 : (s == "all") = false := beq_eq_false_iff_ne.mpr h8
  refine ⟨rfl, rfl, rfl, ?_, ?_, ?_, ?_⟩
  · simp [mainRun, e1, e2, e3, e4, e5, e6, e7, e8]
  · simp [mainRun, e1, e2, e3, e4, e5, e6, e7, e8]
  · intro sc hneg
    rw [mainRun_scenario]
    rw [runScenario_exit_of_createFail sc _ hneg]
    rfl
  · intro hall
    constructor
    · intro sc
      rw [mainRun_scenario]
      have hc : (runScenario sc (envFor env sc)).exited = none :=
        runScenario_completes sc (envFor env sc) (hall (scenarioFile sc))
      simp [finishRun, hc]
    · have hx := runScenarios_exited_none env scenariosInOrder hall
      simp [mainRun, hx]

/-- Witness for the amended C5 at a concrete environment and name. -/
theorem exit_codes_amended_witness :
    ("bogus" ∉ ["basic_2d", "basic_3d", "with_variables", "multiple_blocks",
                "with_node_sets", "with_side_sets", "comprehensive", "all"]) ∧
    ((mainRun ["writer"] menv0).exitCode = 1 ∧
     (mainRun ["writer"] menv0).actions = usageActions "writer" ∧
     reportedBeforeFileEffects (mainRun ["writer"] menv0).actions = true ∧
     (mainRun ["writer", "bogus"] menv0).actions =
       [.mkdirOutput, .err ("Unknown test case: " ++ "bogus" ++ "\n")] ∧
     (mainRun ["writer", "bogus"] menv0).exitCode = 1 ∧
     (∀ sc : Scenario, menv0.createResult (scenarioFile sc) < 0 →
       (mainRun ["writer", scenarioName sc] menv0).exitCode = 1) ∧
     ((∀ f, 0 ≤ menv0.createResult f) →
       (∀ sc : Scenario, (mainRun ["writer", scenarioName sc] menv0).exitCode = 0) ∧
       (mainRun ["writer", "all"] menv0).exitCode = 0)) :=
  ⟨by decide, exit_codes_amended menv0 "writer" "bogus" (by decide)⟩

/-- C6 counterexample: the file generated for `basic_2d` is
`output/c_basic_2d.exo`, which is not the scenario name followed by the
extension inside the output directory — the name carries a `c_`
prefix. -/
theorem scenario_filename_counterexample :
    scenarioFile .basic_2d ≠ OUTPUT_DIR ++ "/" ++ scenarioName .basic_2d ++ ".exo" := by
  decide

/-- C6 (amended): every scenario's output file is named
`c_<scenario>.exo` — the scenario name with a `c_` prefix and the `.exo`
extension — inside the fixed relative output directory, and selecting
that scenario passes exactly that path to `ex_create`. -/
theorem scenario_filename_amended (sc : Scenario) (prog : String) (env : MainEnv) :
    scenarioFile sc = OUTPUT_DIR ++ "/c_" ++ scenarioName sc ++ ".exo" ∧
    createdFiles (mainRun [prog, scenarioName sc] env).actions = [scenarioFile sc] := by
  constructor
  · cases sc <;> rfl
  · rw [mainRun_scenario]
    calc createdFiles (finishRun [Action.mkdirOutput] (runScenario sc (envFor env sc))).actions
        = createdFiles (runScenario sc (envFor env sc)).actions := rfl
      _ = [scenarioFile sc] := createdFiles_runScenario sc _

/-- C7: the catch-all selector "all" creates exactly one file per row of
the §4.1 table, running the seven scenarios in table order; the run's
actions are exactly the sequence of the seven scenarios' actions, and
each scenario's trace matches its table row. -/
theorem all_selector_generates_table (prog : String) (env : MainEnv)
    (hall : ∀ f, 0 ≤ env.createResult f) :
    createdFiles (mainRun [prog, "all"] env).actions = scenariosInOrder.map scenarioFile ∧
    (mainRun [prog, "all"] env).exitCode = 0 ∧
    (mainRun [prog, "all"] env).actions =
      [Action.mkdirOutput, Action.out "Generating all C test files...\n\n"] ++
        (scenariosInOrder.map fun sc => (runScenario sc (envFor env sc)).actions).flatten ++
        [Action.out "\n✓ All 7 test files generated successfully!\n"] ∧
    ∀ sc : Scenario, RowOk (tableRow sc) (scenarioEvents sc (envFor env sc)) = true := by
  have hx := runScenarios_exited_none env scenariosInOrder hall
  have hact : (mainRun [prog, "all"] env).actions =
      [Action.mkdirOutput, Action.out "Generating all C test files...\n\n"] ++
        (runScenarios env scenariosInOrder).actions ++
        [Action.out "\n✓ All 7 test files generated successfully!\n"] := by
    simp [mainRun, hx]
  refine ⟨?_, ?_, ?_, ?_⟩
  · rw [hact, createdFiles_append, createdFiles_append,
      createdFiles_runScenarios env scenariosInOrder hall]
    rfl
  · simp [mainRun, hx]
  · rw [hact, runScenarios_actions_append env scenariosInOrder hall]
  · intro sc
    have h' : ¬ (envFor env sc).exoid < 0 := not_lt.mpr (hall (scenarioFile sc))
    cases sc <;>
      simp only [scenarioEvents, runScenario, generate_basic_2d, generate_basic_3d,
        generate_with_variables, generate_multiple_blocks, generate_with_node_sets,
        generate_with_side_sets, generate_comprehensive] <;>
      rw [if_neg h'] <;> rfl

/-- Witness for C7 at a concrete environment. -/
theorem all_selector_generates_table_witness :
    (∀ f, 0 ≤ menv0.createResult f) ∧
    (createdFiles (mainRun ["writer", "all"] menv0).actions =
       scenariosInOrder.map scenarioFile ∧
     (mainRun ["writer", "all"] menv0).exitCode = 0 ∧
     (mainRun ["writer", "all"] menv0).actions =
       [Action.mkdirOutput, Action.out "Generating all C test files...\n\n"] ++
         (scenariosInOrder.map fun sc =>
           (runScenario sc (envFor menv0 sc)).actions).flatten ++
         [Action.out "\n✓ All 7 test files generated successfully!\n"] ∧
     ∀ sc : Scenario, RowOk (tableRow sc) (scenarioEvents sc (envFor menv0 sc)) = true) :=
  ⟨fun _ => le_refl 0, all_selector_generates_table "writer" menv0 (fun _ => le_refl 0)⟩

/-- C8: only the file-creation result gates execution: the write calls'
captured return codes never influence the run, and with a successful
creation the scenario performs its whole call sequence, ends its library
calls with `ex_close`, and prints its success message, whatever the
write calls report. -/
theorem write_results_never_gate (sc : Scenario) (env : GenEnv)
    (w' : Nat → Int) (h : 0 ≤ env.exoid) :
    runScenario sc env = runScenario sc ⟨env.exoid, w', env.date, env.time⟩ ∧
    (runScenario sc env).exited = none ∧
    (runScenario sc env).actions.getLast? =
      some (.out ("Generated: " ++ scenarioFile sc ++ "\n")) ∧
    (scenarioEvents sc env).getLast? = some .close := by
  have h' : ¬ env.exoid < 0 := not_lt.mpr h
  cases sc <;>
    refine ⟨?_, ?_, ?_, ?_⟩ <;>
    simp only [runScenario, scenarioEvents, generate_basic_2d, generate_basic_3d,
      generate_with_variables, generate_multiple_blocks, generate_with_node_sets,
      generate_with_side_sets, generate_comprehensive] <;>
    rw [if_neg h'] <;> rfl

/-- Witness for C8 at a concrete environment where every write call
reports failure. -/
theorem write_results_never_gate_witness :
    0 ≤ env0.exoid ∧
    (runScenario .basic_2d env0 =
       runScenario .basic_2d ⟨env0.exoid, fun _ => -7, env0.date, env0.time⟩ ∧
     (runScenario .basic_2d env0).exited = none ∧
     (runScenario .basic_2d env0).actions.getLast? =
       some (.out ("Generated: " ++ scenarioFile .basic_2d ++ "\n")) ∧
     (scenarioEvents .basic_2d env0).getLast? = some .close) :=
  ⟨by decide, write_results_never_gate .basic_2d env0 (fun _ => -7) (by decide)⟩

/-- C9: every scenario run opens its output path with `EX_CLOBBER`
(which, as modelled from the spec, overwrites a prior file at that
path), and any two successful runs of the same scenario produce the same
structural content — only the QA record's date and time fields can
differ between runs. -/
theorem rerun_deterministic_modulo_qa (sc : Scenario) (env1 env2 : GenEnv)
    (h1 : 0 ≤ env1.exoid) (h2 : 0 ≤ env2.exoid) :
    (scenarioEvents sc env1).head? = some (.create (scenarioFile sc) .clobber) ∧
    createModeOverwrites .clobber = true ∧
    structuralContent (runScenario sc env1) = structuralContent (runScenario sc env2) := by
  have h1' : ¬ env1.exoid < 0 := not_lt.mpr h1
  have h2' : ¬ env2.exoid < 0 := not_lt.mpr h2
  cases sc <;>
    refine ⟨?_, rfl, ?_⟩ <;>
    simp only [scenarioEvents, structuralContent, runScenario, generate_basic_2d,
      generate_basic_3d, generate_with_variables, generate_multiple_blocks,
      generate_with_node_sets, generate_with_side_sets, generate_comprehensive] <;>
    rw [if_neg h1'] <;> (try rw [if_neg h2']) <;> rfl

/-- Witness for C9 at two concrete environments with different dates,
times and library return codes. -/
theorem rerun_deterministic_modulo_qa_witness :
    (0 ≤ env0.exoid ∧ 0 ≤ env1.exoid) ∧
    ((scenarioEvents .with_variables env0).head? =
       some (.create (scenarioFile .with_variables) .clobber) ∧
     createModeOverwrites .clobber = true ∧
     structuralContent (runScenario .with_variables env0) =
       structuralContent (runScenario .with_variables env1)) :=
  ⟨⟨by decide, by decide⟩,
   rerun_deterministic_modulo_qa .with_variables env0 env1 (by decide) (by decide)⟩

/-- C10: in `with_variables`, at each of the two time steps the single
global variable's value written equals the time value written for that
step, and that common value is (s-1)·0.1 (exact in the rational
model). -/
theorem global_equals_time_with_variables (env : GenEnv) (h : 0 ≤ env.exoid)
    (s : Int) (hs : s = 1 ∨ s = 2) :
    varValsAt .global s (scenarioEvents .with_variables env) =
      (timeAt s (scenarioEvents .with_variables env)).map (fun v => [v]) ∧
    timeAt s (scenarioEvents .with_variables env) = some (((s : ℚ) - 1) * (1/10)) := by
  have h' : ¬ env.exoid < 0 := not_lt.mpr h
  simp only [scenarioEvents, runScenario, generate_with_variables]
  rw [if_neg h']
  rcases hs with rfl | rfl <;>
    refine ⟨?_, ?_⟩ <;>
    norm_num [varValsAt, timeAt, timesOf, libEvents, List.filterMap,
      List.range_succ, List.lookup,
      show ((2 : Int) == 1) = false from by decide,
      show ((2 : Int) == 2) = true from by decide,
      show ((1 : Int) == 1) = true from by decide,
      show ((1 : Int) == 2) = false from by decide]

/-- Witness for C10 at a concrete environment and step. -/
theorem global_equals_time_with_variables_witness :
    (0 ≤ env0.exoid ∧ ((2 : Int) = 1 ∨ (2 : Int) = 2)) ∧
    (varValsAt .global 2 (scenarioEvents .with_variables env0) =
       (timeAt 2 (scenarioEvents .with_variables env0)).map (fun v => [v]) ∧
     timeAt 2 (scenarioEvents .with_variables env0) =
       some ((((2 : Int) : ℚ) - 1) * (1/10))) :=
  ⟨⟨by decide, by decide⟩,
   global_equals_time_with_variables env0 (by decide) 2 (by decide)⟩

end ExodusWriter
